import Mathlib

/-!
Shallow embedding of the session pipeline of the AI-voice-notes application
(src/src/App.tsx).  The repository file contains two revisions of the same
component; they agree on the logic embedded here except where noted
(the second revision adds an empty-blob guard in processAudioChunk and a
fixed 500 ms delay in stopRecording; the first revision finalizes
synchronously).

The React state cell is modelled as an explicit record `AppState`.  One
invocation of `processAudioChunk` is an asynchronous task with three await
points (blob-to-base64 conversion, the transcription service call, the
enhancement service call); the outcomes of the external calls are the
task's parameters, since the two services are black boxes.  Interleaving of
completions on the single-threaded event loop is modelled by a scheduler
that consumes a list of events, each event resuming one task at its next
await point (the code between two await points runs atomically, as on a JS
event loop).  Closure-captured state reads are given their most charitable
reading: they see the live state at the resumption that uses them.
-/

/-- JS whitespace for the purposes of `String.prototype.trim` (space, tab,
line feed, carriage return, form feed, vertical tab; the exotic Unicode
space characters do not occur in this development). -/
def jsWhitespace (c : Char) : Bool :=
  c == ' ' || c == '\t' || c == '\n' || c == '\r' || c == '\x0c' || c == '\x0b'

/-- JS `String.prototype.trim`: strip leading and trailing whitespace.
Defined over the character list so that it evaluates by kernel
reduction. -/
def jsTrim (s : String) : String :=
  ⟨((s.data.dropWhile jsWhitespace).reverse.dropWhile jsWhitespace).reverse⟩

/-- A transcript chunk (interface TranscriptChunk): `id` is the
`Date.now()` value at creation (a numeric string in the source; numeric
string conversion is injective, so `Nat` preserves all identity
questions). -/
structure Chunk where
  id : Nat
  text : String
deriving DecidableEq, Repr

/-- A saved note (interface VoiceNote). -/
structure VoiceNote where
  id : Nat
  text : String
  timestamp : Nat
  duration : Nat
deriving DecidableEq, Repr

/-- The React state of the App component (the fields the pipeline
mutates). -/
structure AppState where
  isRecording : Bool
  isProcessing : Bool
  currentTranscript : String
  transcriptChunks : List Chunk
  voiceNotes : List VoiceNote
  recordingStartTime : Nat
  recordingDuration : Nat
deriving DecidableEq, Repr

/-- One invocation of `processAudioChunk`: the audio blob's size, and the
outcomes of the three awaited operations.  `b64ok = false` models the
FileReader onerror path; `transcription = none` models a rejected
`blink.ai.transcribeAudio` call, `some t` a reply with recognized text `t`;
`enhancement` likewise for `blink.ai.generateText`. -/
structure TaskSpec where
  blobSize : Nat
  b64ok : Bool
  transcription : Option String
  enhancement : Option String
  chunkId : Nat
deriving DecidableEq, Repr

/-- Progress of one `processAudioChunk` invocation between await points. -/
inductive Phase where
  | notStarted
  | awaitingBase64
  | awaitingTranscription
  | awaitingEnhancement (combined : String)
  | settled
deriving DecidableEq, Repr

/-- One resumption of a `processAudioChunk` invocation (first-revision
body, src/src/App.tsx lines 39-91): the synchronous code between two await
points, run atomically against the current state.

  - notStarted: `setIsProcessing(true)`, then await the base64 conversion.
  - awaitingBase64: on error, catch and finally (`setIsProcessing(false)`);
    on success, await `blink.ai.transcribeAudio`.
  - awaitingTranscription: on error, catch and finally; on success with
    blank trimmed text, fall through to finally; otherwise build the new
    chunk, `setTranscriptChunks(prev => [...prev, newChunk])`, join
    `[...transcriptChunks, newChunk]` with spaces and await
    `blink.ai.generateText` over it (the combined text is recorded in the
    phase).
  - awaitingEnhancement: on error, catch and finally; on success,
    `setCurrentTranscript(improvedText.trim())` then finally. -/
def stepTask (s : AppState) (t : TaskSpec) : Phase → AppState × Phase
  | .notStarted => ({ s with isProcessing := true }, .awaitingBase64)
  | .awaitingBase64 =>
      if t.b64ok then (s, .awaitingTranscription)
      else ({ s with isProcessing := false }, .settled)
  | .awaitingTranscription =>
      match t.transcription with
      | none => ({ s with isProcessing := false }, .settled)
      | some text =>
          if jsTrim text = "" then ({ s with isProcessing := false }, .settled)
          else
            let newChunk : Chunk := { id := t.chunkId, text := jsTrim text }
            let allChunks := s.transcriptChunks ++ [newChunk]
            if allChunks.length > 0 then
              ({ s with transcriptChunks := s.transcriptChunks ++ [newChunk] },
               .awaitingEnhancement (String.intercalate " " (allChunks.map Chunk.text)))
            else
              ({ s with transcriptChunks := s.transcriptChunks ++ [newChunk],
                        isProcessing := false }, .settled)
  | .awaitingEnhancement _ =>
      match t.enhancement with
      | none => ({ s with isProcessing := false }, .settled)
      | some improved =>
          ({ s with currentTranscript := jsTrim improved, isProcessing := false }, .settled)
  | .settled => (s, .settled)

/-- `startRecording`, success path (src/src/App.tsx lines 93-163): reset
`transcriptChunks` and `currentTranscript`, record the start time, reset
the duration display, start capture and `setIsRecording(true)`.  The
source performs no check of the current status before doing so. -/
def startRecording (now : Nat) (s : AppState) : AppState :=
  { s with transcriptChunks := [], currentTranscript := "",
           recordingStartTime := now, recordingDuration := 0,
           isRecording := true }

/-- `stopRecording`, state-mutating part (src/src/App.tsx lines 165-192):
`setIsRecording(false)`; then, if the trimmed transcript is non-empty,
build a VoiceNote with `id = timestamp = Date.now()` and
`duration = floor((now - recordingStartTime) / 1000)` and prepend it.
The note is built from the transcript value visible at this moment; the
source does not wait for in-flight `processAudioChunk` work. -/
def stopRecording (now : Nat) (s : AppState) : AppState :=
  let s1 := { s with isRecording := false }
  if jsTrim s1.currentTranscript ≠ "" then
    let duration := (now - s1.recordingStartTime) / 1000
    let newNote : VoiceNote :=
      { id := now, text := jsTrim s1.currentTranscript, timestamp := now,
        duration := duration }
    { s1 with voiceNotes := newNote :: s1.voiceNotes }
  else s1

/-- `deleteNote` (src/src/App.tsx lines 203-206):
`prev.filter(note => note.id !== id)`. -/
def deleteNote (id : Nat) (notes : List VoiceNote) : List VoiceNote :=
  notes.filter (fun note => note.id != id)

/-- Second-revision `processAudioChunk` (src/src/App.tsx lines 430-477),
run sequentially from invocation to settlement.  It differs from the first
revision in guarding `if (audioBlob.size === 0) return` BEFORE
`setIsProcessing(true)`, and in writing the chunk list by overwrite
(`setTranscriptChunks(updatedChunks)`) rather than a functional update. -/
def processAudioChunkV2 (s : AppState) (t : TaskSpec) : AppState :=
  if t.blobSize = 0 then s
  else
    let s1 := { s with isProcessing := true }
    if !t.b64ok then { s1 with isProcessing := false }
    else
      match t.transcription with
      | none => { s1 with isProcessing := false }
      | some text =>
          if jsTrim text = "" then { s1 with isProcessing := false }
          else
            let newChunk : Chunk := { id := t.chunkId, text := jsTrim text }
            let updatedChunks := s1.transcriptChunks ++ [newChunk]
            let s2 := { s1 with transcriptChunks := updatedChunks }
            match t.enhancement with
            | none => { s2 with isProcessing := false }
            | some improved =>
                { s2 with currentTranscript := jsTrim improved,
                          isProcessing := false }

/-- A configuration of the event loop: the component state plus every
issued `processAudioChunk` invocation with its progress. -/
structure Config where
  state : AppState
  tasks : List (TaskSpec × Phase)
deriving DecidableEq, Repr

/-- An event on the single-threaded loop: resume invocation `i` at its
next await point, or run the synchronous part of `stopRecording`. -/
inductive Event where
  | resume (i : Nat)
  | stop (now : Nat)
deriving DecidableEq, Repr

/-- Deliver one event to the configuration. -/
def stepEvent (c : Config) : Event → Config
  | .resume i =>
      match c.tasks[i]? with
      | none => c
      | some (t, ph) =>
          let r := stepTask c.state t ph
          { state := r.1, tasks := c.tasks.set i (t, r.2) }
  | .stop now => { c with state := stopRecording now c.state }

/-- Run a schedule of events. -/
def run (c : Config) : List Event → Config
  | [] => c
  | e :: es => run (stepEvent c e) es

/-- An idle component state with empty history, as after mount. -/
def idleState : AppState :=
  { isRecording := false, isProcessing := false, currentTranscript := "",
    transcriptChunks := [], voiceNotes := [], recordingStartTime := 0,
    recordingDuration := 0 }

example : (stopRecording 5 idleState).voiceNotes = [] := by decide

example :
    (stopRecording 5 { idleState with currentTranscript := "x" }).voiceNotes =
      [{ id := 5, text := "x", timestamp := 5, duration := 0 }] := by decide

/-! ## Concrete interleaving scenarios -/

/-- Segment 1 of the stale-enhancement scenario: transcribed as "a", the
enhancement service replies "A" to the one-fragment join "a". -/
def c1Seg1 : TaskSpec :=
  { blobSize := 1, b64ok := true, transcription := some "a",
    enhancement := some "A", chunkId := 1 }

/-- Segment 2 of the stale-enhancement scenario: transcribed as "b", the
enhancement service replies "A B" to the two-fragment join "a b". -/
def c1Seg2 : TaskSpec :=
  { blobSize := 1, b64ok := true, transcription := some "b",
    enhancement := some "A B", chunkId := 2 }

/-- A recording session with the two segments issued and not yet begun. -/
def c1Cfg : Config :=
  { state := { idleState with isRecording := true },
    tasks := [(c1Seg1, .notStarted), (c1Seg2, .notStarted)] }

/-- Schedule: segment 1 runs through its transcription and issues its
enhancement call over the one-fragment join "a"; then segment 2 runs
through its transcription and issues its enhancement call over the
two-fragment join "a b"; segment 2's enhancement completes first. -/
def c1Schedule7 : List Event :=
  [.resume 0, .resume 0, .resume 0, .resume 1, .resume 1, .resume 1, .resume 1]

/-- The same schedule, followed by the late completion of segment 1's
enhancement call (issued over the strictly smaller one-fragment join). -/
def c1Schedule8 : List Event := c1Schedule7 ++ [.resume 0]

/-- Claim C1 (refuting evaluation): in the schedule above, segment 1's
enhancement call is issued over the one-fragment join "a" and segment 2's
over the two-fragment join "a b"; the two-fragment result "A B" is applied
first, and the late-arriving one-fragment result then overwrites it, so
after all completions `currentTranscript` is "A", not the result of the
call issued over the longest fragment-join.  `setCurrentTranscript` at
src/src/App.tsx line 83 (and line 469) is unconditional: no fragment-count
or sequence-number guard exists anywhere in the source. -/
theorem c1_stale_enhancement_overwrites_newer :
    (run c1Cfg (List.take 3 c1Schedule7)).tasks.map Prod.snd =
      [.awaitingEnhancement "a", .notStarted] ∧
    (run c1Cfg (List.take 6 c1Schedule7)).tasks.map Prod.snd =
      [.awaitingEnhancement "a", .awaitingEnhancement "a b"] ∧
    (run c1Cfg c1Schedule7).state.currentTranscript = "A B" ∧
    (run c1Cfg c1Schedule8).state.currentTranscript = "A" ∧
    (run c1Cfg c1Schedule8).tasks.map Prod.snd = [.settled, .settled] := by
  refine ⟨by decide, by decide, by decide, by decide, by decide⟩

/-- Segment 1 of the fragment-ordering scenario: transcribed as "a". -/
def c2Seg1 : TaskSpec :=
  { blobSize := 1, b64ok := true, transcription := some "a",
    enhancement := some "A", chunkId := 1 }

/-- Segment 2 of the fragment-ordering scenario: transcribed as "b". -/
def c2Seg2 : TaskSpec :=
  { blobSize := 1, b64ok := true, transcription := some "b",
    enhancement := some "B", chunkId := 2 }

/-- A recording session with the two segments issued and not yet begun. -/
def c2Cfg : Config :=
  { state := { idleState with isRecording := true },
    tasks := [(c2Seg1, .notStarted), (c2Seg2, .notStarted)] }

/-- Schedule: both segments are invoked and pass base64 conversion, then
segment 2's transcription call completes before segment 1's (network
latency is not FIFO); finally both enhancement calls complete. -/
def c2Schedule : List Event :=
  [.resume 0, .resume 1, .resume 0, .resume 1,
   .resume 1, .resume 0, .resume 1, .resume 0]

/-- Claim C2 (refuting evaluation): both transcription calls return
non-empty text, yet after all calls complete the fragment list reads
["b", "a"], not the segment order ["a", "b"]: the fragment append at
src/src/App.tsx line 69 (and 456-457) runs at transcription-completion
time, so fragment order is completion order, not segment order. -/
theorem c2_fragments_in_completion_order :
    (run c2Cfg c2Schedule).state.transcriptChunks.map Chunk.text = ["b", "a"] ∧
    (run c2Cfg c2Schedule).tasks.map Prod.snd = [.settled, .settled] ∧
    ["b", "a"] ≠ ["a", "b"] := by
  refine ⟨by decide, by decide, by decide⟩

/-- The single segment of the premature-finalization scenario: transcribed
as "hello"; the enhancement service replies "Hello.". -/
def c3Seg : TaskSpec :=
  { blobSize := 1, b64ok := true, transcription := some "hello",
    enhancement := some "Hello.", chunkId := 1 }

/-- A recording session (started at time 0) with the one segment issued. -/
def c3Cfg : Config :=
  { state := { idleState with isRecording := true },
    tasks := [(c3Seg, .notStarted)] }

/-- Schedule: the segment reaches its enhancement await; `stopRecording`
runs at time 5000 while that call is still in flight; the enhancement then
completes after finalization. -/
def c3Schedule : List Event :=
  [.resume 0, .resume 0, .resume 0, .stop 5000, .resume 0]

/-- Claim C3 (refuting evaluation): `stopRecording` finalizes immediately
(src/src/App.tsx lines 180-191; the second revision merely delays by a
fixed 500 ms, lines 533-549) without waiting for the in-flight enhancement
call.  At finalization `currentTranscript` is still empty, so NO note is
created, although after the pending work settles the transcript is the
non-empty "Hello." — the claim required finalization to wait and to save a
note with that settled value. -/
theorem c3_finalizes_before_settlement :
    (run c3Cfg c3Schedule).state.voiceNotes = [] ∧
    (run c3Cfg c3Schedule).state.currentTranscript = "Hello." ∧
    (run c3Cfg c3Schedule).tasks.map Prod.snd = [.settled] ∧
    jsTrim "Hello." ≠ "" := by
  refine ⟨by decide, by decide, by decide, by decide⟩

/-- A live recording session with one fragment and a non-empty
transcript, as reached after one successful segment. -/
def c4RecordingState : AppState :=
  { isRecording := true, isProcessing := false, currentTranscript := "x",
    transcriptChunks := [{ id := 1, text := "a" }], voiceNotes := [],
    recordingStartTime := 100, recordingDuration := 3 }

/-- Claim C4 (refuting evaluation): calling `startRecording` while a
session is active (isRecording = true) is not rejected and does not leave
the state unchanged: it silently resets the fragment list and transcript
and begins a fresh capture session.  The source has no status check
(src/src/App.tsx lines 93-163); only the presentation layer avoids the
double start, by wiring the button to `stopRecording` while recording. -/
theorem c4_start_not_rejected :
    c4RecordingState.isRecording = true ∧
    startRecording 7 c4RecordingState ≠ c4RecordingState ∧
    (startRecording 7 c4RecordingState).isRecording = true ∧
    (startRecording 7 c4RecordingState).transcriptChunks = [] ∧
    (startRecording 7 c4RecordingState).recordingStartTime = 7 := by
  refine ⟨by decide, by decide, by decide, by decide, by decide⟩

/-- Claim C4 (amended): `startRecording` performs no state check at all —
its result is the same whether the session was recording or idle (a silent
reset-and-restart), and it always ends with `isRecording = true`, empty
fragments and empty transcript, preserving only the note history. -/
theorem c4_start_ignores_session_status (now : Nat) (s : AppState) :
    startRecording now { s with isRecording := true } =
      startRecording now { s with isRecording := false } ∧
    (startRecording now s).isRecording = true ∧
    (startRecording now s).transcriptChunks = [] ∧
    (startRecording now s).currentTranscript = "" ∧
    (startRecording now s).voiceNotes = s.voiceNotes := by
  refine ⟨rfl, rfl, rfl, rfl, rfl⟩

/-- Claim C5: a segment whose transcription result trims to the empty
string contributes nothing: the resumption settles at once with the chunk
list, transcript and notes untouched, and no enhancement call is issued
(the task never enters `awaitingEnhancement`), matching src/src/App.tsx
line 61 (and 450): the whole success branch is guarded by
`if (text.trim())`. -/
theorem c5_blank_transcription_contributes_nothing (s : AppState)
    (t : TaskSpec) (text : String) (h1 : t.transcription = some text)
    (h2 : jsTrim text = "") :
    stepTask s t .awaitingTranscription =
      ({ s with isProcessing := false }, .settled) := by
  simp [stepTask, h1, h2]

/-- A segment whose transcription call returns whitespace only. -/
def c5BlankTask : TaskSpec :=
  { blobSize := 1, b64ok := true, transcription := some "  ",
    enhancement := none, chunkId := 3 }

/-- Witness for C5 at a concrete whitespace-only transcription result. -/
theorem c5_blank_transcription_witness :
    stepTask idleState c5BlankTask .awaitingTranscription =
      ({ idleState with isProcessing := false }, .settled) :=
  c5_blank_transcription_contributes_nothing idleState c5BlankTask "  "
    rfl (by decide)

/-- Claim C6: `stopRecording` creates a note exactly when the trimmed
transcript is non-empty; the note is prepended, carries the trimmed
transcript as text, and its duration is floor((now - startedAt)/1000)
computed at finalization time; with an empty transcript the note list is
unchanged (src/src/App.tsx lines 180-191 and 534-549). -/
theorem c6_note_iff_nonempty_transcript (now : Nat) (s : AppState) :
    (jsTrim s.currentTranscript ≠ "" →
      (stopRecording now s).voiceNotes =
        { id := now, text := jsTrim s.currentTranscript, timestamp := now,
          duration := (now - s.recordingStartTime) / 1000 } :: s.voiceNotes) ∧
    (jsTrim s.currentTranscript = "" →
      (stopRecording now s).voiceNotes = s.voiceNotes) := by
  constructor
  · intro h
    simp [stopRecording, h]
  · intro h
    simp [stopRecording, h]

/-- A session whose transcript is "x" and that started at time 1200. -/
def c6Session : AppState :=
  { isRecording := true, isProcessing := false, currentTranscript := "x",
    transcriptChunks := [{ id := 1, text := "x" }], voiceNotes := [],
    recordingStartTime := 1200, recordingDuration := 3 }

/-- Witness for C6: stopping `c6Session` at time 5000 yields exactly the
note (id 5000, text "x", duration 3) at the front; and stopping with an
empty transcript leaves the store unchanged at `idleState`. -/
theorem c6_note_iff_nonempty_transcript_witness :
    (stopRecording 5000 c6Session).voiceNotes =
      [{ id := 5000, text := "x", timestamp := 5000, duration := 3 }] ∧
    (stopRecording 5000 idleState).voiceNotes = [] :=
  ⟨(c6_note_iff_nonempty_transcript 5000 c6Session).1 (by decide),
   (c6_note_iff_nonempty_transcript 5000 idleState).2 (by decide)⟩

/-- Claim C7: a failed transcription call and a failed enhancement call
each settle the invocation with the whole state intact apart from clearing
the processing flag — in particular `currentTranscript` keeps its previous
value — and no resumption of `processAudioChunk` ever touches
`isRecording` or `voiceNotes`, so the session continues (the catch block
at src/src/App.tsx lines 86-90 and 471-476 only logs/toasts and the
finally block only clears the flag). -/
theorem c7_failures_leave_state_intact (s : AppState) (t : TaskSpec)
    (combined : String) :
    (t.transcription = none →
      stepTask s t .awaitingTranscription =
        ({ s with isProcessing := false }, .settled)) ∧
    (t.enhancement = none →
      stepTask s t (.awaitingEnhancement combined) =
        ({ s with isProcessing := false }, .settled)) ∧
    (∀ ph : Phase, ((stepTask s t ph).1).isRecording = s.isRecording ∧
      ((stepTask s t ph).1).voiceNotes = s.voiceNotes) := by
  refine ⟨fun h => by simp [stepTask, h], fun h => by simp [stepTask, h],
    fun ph => ?_⟩
  cases ph with
  | notStarted => exact ⟨rfl, rfl⟩
  | awaitingBase64 => cases h : t.b64ok <;> simp [stepTask, h]
  | awaitingTranscription =>
      cases h : t.transcription with
      | none => simp [stepTask, h]
      | some text =>
          by_cases h2 : jsTrim text = "" <;> simp [stepTask, h, h2]
  | awaitingEnhancement combined =>
      cases h : t.enhancement with
      | none => simp [stepTask, h]
      | some improved => simp [stepTask, h]
  | settled => exact ⟨rfl, rfl⟩

/-- A segment whose transcription service call is rejected. -/
def c7FailTask : TaskSpec :=
  { blobSize := 1, b64ok := true, transcription := none,
    enhancement := none, chunkId := 4 }

/-- Witness for C7: a rejected transcription call for `c7FailTask` in the
mid-session state `c4RecordingState` settles with everything unchanged but
the processing flag. -/
theorem c7_failures_leave_state_intact_witness :
    stepTask c4RecordingState c7FailTask .awaitingTranscription =
      ({ c4RecordingState with isProcessing := false }, .settled) :=
  (c7_failures_leave_state_intact c4RecordingState c7FailTask "").1 rfl

/-- Claim C8: deleting an id that is not in the store is a no-op (the
filter at src/src/App.tsx line 204 keeps every note), and hence deleting
the same id twice equals deleting it once. -/
theorem c8_delete_absent_id_noop (id : Nat) (notes : List VoiceNote)
    (h : id ∉ notes.map VoiceNote.id) :
    deleteNote id notes = notes ∧
    deleteNote id (deleteNote id notes) = deleteNote id notes := by
  have h1 : deleteNote id notes = notes := by
    apply List.filter_eq_self.mpr
    intro a ha
    simp only [bne_iff_ne, ne_eq]
    intro e
    exact h (List.mem_map.mpr ⟨a, ha, e⟩)
  exact ⟨h1, by rw [h1, h1]⟩

/-- A store holding two notes with ids 1 and 2. -/
def c8Notes : List VoiceNote :=
  [{ id := 1, text := "one", timestamp := 10, duration := 1 },
   { id := 2, text := "two", timestamp := 20, duration := 2 }]

/-- Witness for C8 at the concrete absent id 7. -/
theorem c8_delete_absent_id_noop_witness :
    deleteNote 7 c8Notes = c8Notes ∧
    deleteNote 7 (deleteNote 7 c8Notes) = deleteNote 7 c8Notes :=
  c8_delete_absent_id_noop 7 c8Notes (by decide)

/-- A recording session with a non-empty transcript and empty history. -/
def c9Session : AppState :=
  { isRecording := true, isProcessing := false, currentTranscript := "x",
    transcriptChunks := [], voiceNotes := [], recordingStartTime := 0,
    recordingDuration := 0 }

/-- Claim C9 (refuting evaluation): note ids are bare `Date.now()`
timestamps and nothing enforces uniqueness — two finalizations within the
same millisecond (e.g. `stopRecording` invoked twice in quick succession:
the source re-runs the note-saving block unconditionally, since the
transcript is not cleared by `stopRecording`) produce two notes with the
same id. -/
theorem c9_duplicate_ids_on_equal_timestamps :
    ((stopRecording 5 (stopRecording 5 c9Session)).voiceNotes.map
        VoiceNote.id) = [5, 5] ∧
    ¬ ((stopRecording 5 (stopRecording 5 c9Session)).voiceNotes.map
        VoiceNote.id).Nodup := by
  refine ⟨by decide, by decide⟩

/-- Claim C9 (amended): id uniqueness is preserved by insertion provided
the finalization timestamp differs from every id already in the store
(which the code merely assumes of millisecond clocks, and which a
same-millisecond double stop violates), and deletion always preserves
it. -/
theorem c9_ids_nodup_with_fresh_timestamps (now id : Nat) (s : AppState)
    (h1 : (s.voiceNotes.map VoiceNote.id).Nodup)
    (h2 : now ∉ s.voiceNotes.map VoiceNote.id) :
    ((stopRecording now s).voiceNotes.map VoiceNote.id).Nodup ∧
    ((deleteNote id s.voiceNotes).map VoiceNote.id).Nodup := by
  constructor
  · by_cases h : jsTrim s.currentTranscript = ""
    · simpa [stopRecording, h] using h1
    · simp only [stopRecording, h, ne_eq, not_false_eq_true, if_true,
        List.map_cons, List.nodup_cons]
      exact ⟨h2, h1⟩
  · exact List.Nodup.sublist
      ((List.filter_sublist s.voiceNotes).map VoiceNote.id) h1

/-- Witness for C9: stopping `c9Session` at the fresh timestamp 9, and
deleting id 1 from its (empty) store, both keep ids duplicate-free. -/
theorem c9_ids_nodup_witness :
    ((stopRecording 9 c9Session).voiceNotes.map VoiceNote.id).Nodup ∧
    ((deleteNote 1 c9Session.voiceNotes).map VoiceNote.id).Nodup :=
  c9_ids_nodup_with_fresh_timestamps 9 1 c9Session (by decide) (by decide)

/-- A state in which an earlier `processAudioChunk` invocation is still in
flight, so the processing flag is set. -/
def c10Busy : AppState := { idleState with isProcessing := true }

/-- An invocation handed an empty audio blob. -/
def c10EmptyBlob : TaskSpec :=
  { blobSize := 0, b64ok := true, transcription := none,
    enhancement := none, chunkId := 0 }

/-- Claim C10 (refuting evaluation): the second revision's guard
`if (audioBlob.size === 0) return` (src/src/App.tsx line 431) runs BEFORE
`setIsProcessing(true)` and before the try/finally, so an empty-blob
invocation settles leaving the flag exactly as it found it — here true,
because another invocation is still in flight. -/
theorem c10_empty_blob_leaves_flag_set :
    processAudioChunkV2 c10Busy c10EmptyBlob = c10Busy ∧
    c10Busy.isProcessing = true := by
  refine ⟨by decide, by decide⟩

/-- Claim C10 (amended): every invocation that passes the empty-blob
guard settles with `isProcessing = false`, on the success, blank-text and
every error path (the finally block); equally, in the first-revision
interleaving machine every settling resumption clears the flag.  Only the
second revision's empty-blob early return bypasses the flag entirely. -/
theorem c10_processing_flag_cleared_on_settlement (s : AppState)
    (t : TaskSpec) :
    (t.blobSize ≠ 0 → (processAudioChunkV2 s t).isProcessing = false) ∧
    (∀ ph : Phase, ph ≠ .settled → (stepTask s t ph).2 = .settled →
      ((stepTask s t ph).1).isProcessing = false) := by
  constructor
  · intro h
    cases hb : t.b64ok with
    | false => simp [processAudioChunkV2, h, hb]
    | true =>
        cases ht : t.transcription with
        | none => simp [processAudioChunkV2, h, hb, ht]
        | some text =>
            by_cases h2 : jsTrim text = ""
            · simp [processAudioChunkV2, h, hb, ht, h2]
            · cases he : t.enhancement <;>
                simp [processAudioChunkV2, h, hb, ht, h2, he]
  · intro ph h1 h2
    cases ph with
    | notStarted => simp [stepTask] at h2
    | awaitingBase64 =>
        cases hb : t.b64ok with
        | false => simp [stepTask, hb]
        | true => simp [stepTask, hb] at h2
    | awaitingTranscription =>
        cases ht : t.transcription with
        | none => simp [stepTask, ht]
        | some text =>
            by_cases hx : jsTrim text = ""
            · simp [stepTask, ht, hx]
            · simp [stepTask, ht, hx] at h2
    | awaitingEnhancement c => cases he : t.enhancement <;> simp [stepTask, he]
    | settled => exact absurd rfl h1

/-- An ordinary successful invocation with a non-empty blob. -/
def c10FullTask : TaskSpec :=
  { blobSize := 3, b64ok := true, transcription := some "hi",
    enhancement := some "Hi.", chunkId := 5 }

/-- Witness for C10 (amended) at a concrete non-empty-blob invocation. -/
theorem c10_processing_flag_cleared_witness :
    (processAudioChunkV2 idleState c10FullTask).isProcessing = false :=
  (c10_processing_flag_cleared_on_settlement idleState c10FullTask).1
    (by decide)
